import Mathlib

/-!
Verification of the command-line driver of `ibp_neurips19`
(`src/ibp_neurips19/cli.py`) against its natural-language specification.

The file shallowly embeds the three commands `basic`, `experiment` and
`pgd`.  Python dictionaries (checkpoints, attack-result records, the file
system seen by `torch.load` / `torch.save`) are embedded as association
lists with first-match lookup and in-place replacement, matching Python
`dict` semantics for unique keys.  Python floats appearing in the
experiment grids are embedded as exact rationals paired with the string
`str()` produces for them, since the source only compares grid literals
with each other and interpolates them into paths.  External calls
(`train_classifier`, model construction, `compute_robustness`) are
represented as effects or as outcome parameters, since those modules are
outside the embedded file.
-/

/-- Python exceptions that the embedded code can raise. -/
inductive PyErr where
  /-- `torch.load` on a missing or unreadable file. -/
  | fileNotFound (path : String)
  /-- Python `KeyError` from a dictionary lookup, naming the missing key. -/
  | keyError (k : String)
  /-- Python `AttributeError`, e.g. `.append` on a non-list value. -/
  | attributeError
  /-- An exception escaping the external `compute_robustness` call. -/
  | attackFailure
deriving DecidableEq

/-- Values stored in an attack-result record (`cli.py` lines 227-235). -/
inductive RVal where
  | intOpt (v : Option Int)
  | natOpt (v : Option Nat)
  | nat (v : Nat)
  | rat (v : ℚ)
  | ratList (v : List ℚ)
deriving DecidableEq

/-- An attack-result record: the Python dict built at `cli.py:227-235`. -/
abbrev AttackRecord := List (String × RVal)

/-- The aggregated outcome of `compute_robustness` (external module). -/
structure RobResults where
  robustness : ℚ
  fooling_rate : ℚ
  sorted_errors : List ℚ
deriving DecidableEq

/-- Values stored in a checkpoint dictionary. -/
inductive CVal where
  /-- The model parameters under `state_dict` (opaque payload). -/
  | stateDict (v : Nat)
  /-- A list of attack-result records (the value under `PGD`). -/
  | records (v : List AttackRecord)
  /-- Any other bookkeeping entry. -/
  | other (v : Nat)
deriving DecidableEq

/-- A checkpoint: a Python dict from string keys to values. -/
abbrev Checkpoint := List (String × CVal)

/-- The file system seen by `torch.load` and `torch.save`: a map from
paths to stored checkpoints. -/
abbrev FS := List (String × Checkpoint)

/-- Python `d[k]` as an option: first match in the association list. -/
def dictGet {α : Type} : List (String × α) → String → Option α
  | [], _ => none
  | (k', v) :: t, k => if k' = k then some v else dictGet t k

/-- Python `k in d`. -/
def dictContains {α : Type} (d : List (String × α)) (k : String) : Bool :=
  (dictGet d k).isSome

/-- Python `d[k] = v`: replace in place if the key exists, else append. -/
def dictSet {α : Type} : List (String × α) → String → α → List (String × α)
  | [], k, v => [(k, v)]
  | (k', v') :: t, k, v =>
    if k' = k then (k, v) :: t else (k', v') :: dictSet t k v

theorem dictGet_dictSet_self {α : Type} (d : List (String × α)) (k : String)
    (v : α) : dictGet (dictSet d k v) k = some v := by
  induction d with
  | nil => simp [dictSet, dictGet]
  | cons hd t ih =>
    obtain ⟨k', v'⟩ := hd
    by_cases hk : k' = k
    · simp [dictSet, dictGet, hk]
    · simp [dictSet, dictGet, hk, ih]

theorem dictGet_dictSet_ne {α : Type} (d : List (String × α)) (k k' : String)
    (v : α) (h : k' ≠ k) : dictGet (dictSet d k v) k' = dictGet d k' := by
  have hne : k ≠ k' := fun hh => h hh.symm
  induction d with
  | nil => simp [dictSet, dictGet, hne]
  | cons hd t ih =>
    obtain ⟨k0, v0⟩ := hd
    by_cases hk : k0 = k
    · subst hk
      simp [dictSet, dictGet, hne]
    · by_cases hk' : k0 = k'
      · simp [dictSet, dictGet, hk, hk', h]
      · simp [dictSet, dictGet, hk, hk', ih]

theorem dictSet_dictSet_self {α : Type} (d : List (String × α)) (k : String)
    (v w : α) : dictSet (dictSet d k v) k w = dictSet d k w := by
  induction d with
  | nil => simp [dictSet]
  | cons hd t ih =>
    obtain ⟨k0, v0⟩ := hd
    by_cases hk : k0 = k
    · simp [dictSet, hk]
    · simp [dictSet, hk, ih]

/-- `torch.load(checkpoint_file)` (`cli.py:214`): read the stored mapping,
failing when the file is absent. -/
def torchLoad (fs : FS) (file : String) : Except PyErr Checkpoint :=
  match dictGet fs file with
  | none => .error (.fileNotFound file)
  | some c => .ok c

/-- `torch.save(checkpoint, checkpoint_file)` (`cli.py:236`). -/
def torchSave (fs : FS) (file : String) (c : Checkpoint) : FS :=
  dictSet fs file c

/-- The record dict literal built at `cli.py:227-235`, in source order. -/
def mkRecord (seed : Option Int) (subset : Option Nat) (restarts : Nat)
    (testEpsilon : ℚ) (results : RobResults) : AttackRecord :=
  [("seed", .intOpt seed),
   ("subset", .natOpt subset),
   ("restarts", .nat restarts),
   ("epsilon", .rat testEpsilon),
   ("robustness", .rat results.robustness),
   ("fooling_rate", .rat results.fooling_rate),
   ("sorted_errors", .ratList results.sorted_errors)]

/-- Lines 225-227 of `cli.py`:
`if 'PGD' not in checkpoint: checkpoint['PGD'] = []` followed by
`checkpoint['PGD'].append(record)`.  Appending to a non-list value would
raise `AttributeError` in Python. -/
def appendPGD (c : Checkpoint) (r : AttackRecord) : Except PyErr Checkpoint :=
  let c' := if dictContains c "PGD" then c else dictSet c "PGD" (.records [])
  match dictGet c' "PGD" with
  | some (.records l) => .ok (dictSet c' "PGD" (.records (l ++ [r])))
  | _ => .error .attributeError

/-- The list of records the `pgd` run block sees under `PGD` before
appending: the stored list, or `[]` when the key is absent (`cli.py:225`).
`none` marks a checkpoint whose `PGD` entry is not a record list. -/
def priorPGD (c : Checkpoint) : Option (List AttackRecord) :=
  match dictGet c "PGD" with
  | none => some []
  | some (.records l) => some l
  | some _ => none

theorem appendPGD_of_prior (c : Checkpoint) (l : List AttackRecord)
    (r : AttackRecord) (h : priorPGD c = some l) :
    appendPGD c r = .ok (dictSet c "PGD" (.records (l ++ [r]))) := by
  unfold priorPGD at h
  unfold appendPGD
  cases hg : dictGet c "PGD" with
  | none =>
    rw [hg] at h
    have hl : l = [] := by simpa using h.symm
    subst hl
    have hc : dictContains c "PGD" = false := by
      simp [dictContains, hg]
    simp [hc, dictGet_dictSet_self, dictSet_dictSet_self]
  | some v =>
    rw [hg] at h
    cases v with
    | records l0 =>
      have hl : l0 = l := by simpa using h
      subst hl
      have hc : dictContains c "PGD" = true := by
        simp [dictContains, hg]
      simp [hc, hg]
    | stateDict v0 => simp at h
    | other v0 => simp at h

/-- A `click.FloatRange(min, max)` parameter type, embedding the Python
floats it checks as rationals.  `click.FloatRange()` leaves both bounds
unset. -/
structure FloatRange where
  min : Option ℚ := none
  max : Option ℚ := none

/-- Whether a `click.FloatRange` accepts a value (no clamping is used in
the source, so out-of-range values are rejected). -/
def FloatRange.accepts (r : FloatRange) (x : ℚ) : Bool :=
  (match r.min with
   | none => true
   | some m => decide (m ≤ x)) &&
  (match r.max with
   | none => true
   | some m => decide (x ≤ m))

/-- A `click.IntRange(min, max)` parameter type. -/
structure IntRange where
  min : Option Int := none
  max : Option Int := none

/-- Whether a `click.IntRange` accepts a value. -/
def IntRange.accepts (r : IntRange) (x : Int) : Bool :=
  (match r.min with
   | none => true
   | some m => decide (m ≤ x)) &&
  (match r.max with
   | none => true
   | some m => decide (x ≤ m))

/-- An optional-int option is checked only when a value is supplied
(`--seed` defaults to `None`, which click passes through unchecked). -/
def IntRange.acceptsOpt (r : IntRange) (x : Option Int) : Bool :=
  match x with
  | none => true
  | some v => r.accepts v

/-- `cli.py:55`: `--learning-rate` uses `click.FloatRange(min=0)`. -/
def learningRateRange : FloatRange := { min := some 0 }

/-- `cli.py:61`: `--momentum` uses `click.FloatRange(min=0)`. -/
def momentumRange : FloatRange := { min := some 0 }

/-- `cli.py:67`: `--weight-decay` uses `click.FloatRange(min=0)`. -/
def weightDecayRange : FloatRange := { min := some 0 }

/-- `cli.py:74`: `--number-of-epochs` uses `click.IntRange(min=0)`. -/
def epochsRange : IntRange := { min := some 0 }

/-- `cli.py:80`: `--batch-size` uses `click.IntRange(min=0)`. -/
def batchSizeRange : IntRange := { min := some 0 }

/-- `cli.py:86`: `--jobs` uses `click.IntRange(min=0)`. -/
def jobsRange : IntRange := { min := some 0 }

/-- `cli.py:110`: `--seed` uses `click.IntRange()` with no bounds. -/
def seedRange : IntRange := {}

/-- `cli.py:116`: `--epsilon` uses `click.FloatRange()` with no bounds. -/
def epsilonRange : FloatRange := {}

/-- The keyword arguments of the `basic` command, with the defaults
declared by its `click.option` decorators (`cli.py:24-118`). -/
structure BasicArgs where
  evaluate_only : Bool := true
  dataset : String := "MNIST"
  model : String := "small_cnn"
  pretrained : Bool := false
  learning_rate : ℚ := mkRat 1 10
  momentum : ℚ := mkRat 9 10
  weight_decay : ℚ := mkRat 1 10000
  epochs : Int := 90
  batch_size : Int := 256
  jobs : Int := 4
  checkpoint : String := "checkpoint.pth"
  resume : String := ""
  log_dir : String := "logs"
  seed : Option Int := none
  epsilon : ℚ := 0
deriving DecidableEq

/-- The default argument record of `basic`: what an invocation with no
options passes to `train_classifier`. -/
def basicDefaults : BasicArgs := {}

/-- Whether click's parameter types of the `basic` command accept a given
argument record: the conjunction of the range checks declared at
`cli.py:24-118`.  Flag and plain string/path options perform no range
check. -/
def basicCliAccepts (a : BasicArgs) : Bool :=
  learningRateRange.accepts a.learning_rate &&
  momentumRange.accepts a.momentum &&
  weightDecayRange.accepts a.weight_decay &&
  epochsRange.accepts a.epochs &&
  batchSizeRange.accepts a.batch_size &&
  jobsRange.accepts a.jobs &&
  seedRange.acceptsOpt a.seed &&
  epsilonRange.accepts a.epsilon

/-- Observable actions of the embedded commands. -/
inductive Eff where
  /-- A `print(...)` call, with the printed line. -/
  | printLn (s : String)
  /-- The `train_classifier(*args, **kwargs)` call in `basic`
  (`cli.py:121`). -/
  | trainClassifier (a : BasicArgs)
  /-- The `ctx.invoke(basic, ...)` call in `experiment`
  (`cli.py:156-164`). -/
  | invokeBasic (a : BasicArgs)
  /-- Model construction `models.__dict__[name]()` plus
  `fit_to_dataset` (`cli.py:212-213`). -/
  | buildModel (name : String)
  /-- `torch.load(checkpoint_file)` (`cli.py:214`). -/
  | loadCkpt (path : String)
  /-- The `compute_robustness` call (`cli.py:216-224`). -/
  | attack (restarts : Nat) (subset : Option Nat) (seed : Option Int)
      (testEpsilon : ℚ)
  /-- `torch.save(checkpoint, checkpoint_file)` (`cli.py:236`). -/
  | saveCkpt (path : String)
deriving DecidableEq

/-- The body of `basic` (`cli.py:119-121`): forward everything to
`train_classifier`. -/
def basicRun (a : BasicArgs) : Eff :=
  .trainClassifier a

/-- One configuration enumerated by the `experiment` command
(`cli.py:142-147`).  Each float of the grid carries the string Python
`str()` yields for it, which is what the f-strings interpolate. -/
structure ExpCfg where
  dataset : String
  epsilon : ℚ
  epsilonStr : String
  learningRate : ℚ
  learningRateStr : String
  model : String
deriving DecidableEq

/-- `cli.py:142`. -/
def expDatasets : List String := ["MNIST", "CIFAR10", "SVHN", "CIFAR100"]

/-- `cli.py:143`: `[0.001, 0.01, 0.03, 0.1, 0.2, 0.3, 0.4]`. -/
def expEpsilons : List (ℚ × String) :=
  [(mkRat 1 1000, "0.001"), (mkRat 1 100, "0.01"), (mkRat 3 100, "0.03"),
   (mkRat 1 10, "0.1"), (mkRat 1 5, "0.2"), (mkRat 3 10, "0.3"), (mkRat 2 5, "0.4")]

/-- `cli.py:144`: `[1e-1, 1e-2, 1e-3]`. -/
def expLearningRates : List (ℚ × String) :=
  [(mkRat 1 10, "0.1"), (mkRat 1 100, "0.01"), (mkRat 1 1000, "0.001")]

/-- `cli.py:145`. -/
def expModels : List String := ["small_cnn", "medium_cnn", "large_cnn"]

/-- The enumeration order of `product(datasets, epsilons, learning_rates,
models)` at `cli.py:146-147`. -/
def expGrid : List ExpCfg :=
  expDatasets.flatMap fun d =>
    expEpsilons.flatMap fun e =>
      expLearningRates.flatMap fun lr =>
        expModels.map fun m => ⟨d, e.1, e.2, lr.1, lr.2, m⟩

/-- `cli.py:150`: `f'{dataset}-{model}-{epsilon}/{learning_rate}'`. -/
def expDirectory (c : ExpCfg) : String :=
  c.dataset ++ "-" ++ c.model ++ "-" ++ c.epsilonStr ++ "/" ++
    c.learningRateStr

/-- `cli.py:151-153`: the printed shell command. -/
def expCommand (c : ExpCfg) : String :=
  "ibp basic --train -d " ++ c.dataset ++ " -m " ++ c.model ++ " -e " ++
    c.epsilonStr ++ " -lr " ++ c.learningRateStr ++ " -l " ++
    expDirectory c ++ " -c " ++ expDirectory c ++ "/checkpoint.pth"

/-- `cli.py:156-164`: the arguments `ctx.invoke(basic, ...)` passes;
options not named keep the defaults of `basic`. -/
def expInvoke (c : ExpCfg) : BasicArgs :=
  { basicDefaults with
    evaluate_only := false
    dataset := c.dataset
    model := c.model
    epsilon := c.epsilon
    learning_rate := c.learningRate
    log_dir := expDirectory c
    checkpoint := expDirectory c ++ "/checkpoint.pth" }

/-- `cli.py:148` (and `cli.py:202`): the loop body is skipped when an
index is given and differs from the position. -/
def indexMatches (index : Option Nat) (i : Nat) : Bool :=
  match index with
  | none => true
  | some j => i == j

/-- One iteration of the `experiment` loop (`cli.py:148-164`). -/
def expStep (run : Bool) (i : Nat) (c : ExpCfg) : List Eff :=
  .printLn (toString i ++ " " ++ expCommand c) ::
    (if run then [.invokeBasic (expInvoke c)] else [])

/-- The full `experiment` command (`cli.py:140-164`) as its list of
observable actions. -/
def experimentLoop (run : Bool) (index : Option Nat) : List Eff :=
  expGrid.enum.flatMap fun p =>
    if indexMatches index p.1 then expStep run p.1 p.2 else []

/-- One configuration yielded by the `experiments` generator inside `pgd`
(`cli.py:185-198`), again pairing each grid float with its `str()`. -/
structure PgdCfg where
  dataset : String
  epsilon : ℚ
  epsilonStr : String
  model : String
  learningRate : ℚ
  learningRateStr : String
  testEpsilon : ℚ
  testEpsilonStr : String
deriving DecidableEq

/-- `cli.py:186`. -/
def pgdDatasets : List String := ["MNIST", "CIFAR10"]

/-- `cli.py:187`: `[0.01, 0.03, 0.1, 0.2]`. -/
def pgdEpsilons : List (ℚ × String) :=
  [(mkRat 1 100, "0.01"), (mkRat 3 100, "0.03"), (mkRat 1 10, "0.1"), (mkRat 1 5, "0.2")]

/-- `cli.py:188`. -/
def pgdModelSizes : List String := ["small", "medium"]

/-- `cli.py:189`: `[0, 1e-1, 1e-2, 1e-3]` (the first entry is the int
`0`, whose `str()` is `0`). -/
def pgdLearningRates : List (ℚ × String) :=
  [(0, "0"), (mkRat 1 10, "0.1"), (mkRat 1 100, "0.01"), (mkRat 1 1000, "0.001")]

/-- `cli.py:190`: `[mkRat 2 255, 0.1, 0.2, 0.3]`. -/
def pgdTestEpsilons : List (ℚ × String) :=
  [(mkRat 2 255, "0.00784313725490196"), (mkRat 1 10, "0.1"), (mkRat 1 5, "0.2"),
   (mkRat 3 10, "0.3")]

/-- The generator of `cli.py:185-198`: the cartesian product in the order
`product(datasets, epsilons, model_size, learning_rates, test_epsilons)`
with the two `continue` filters of lines 193-197. -/
def pgdExperiments : List PgdCfg :=
  pgdDatasets.flatMap fun d =>
    pgdEpsilons.flatMap fun e =>
      pgdModelSizes.flatMap fun m =>
        pgdLearningRates.flatMap fun lr =>
          pgdTestEpsilons.flatMap fun te =>
            if d = "CIFAR10" then
              if te.1 ≠ mkRat 2 255 ∨ e.1 ≠ mkRat 1 100 then []
              else [⟨d, e.1, e.2, m, lr.1, lr.2, te.1, te.2⟩]
            else
              if te.1 = mkRat 2 255 ∨ e.1 = mkRat 1 100 then []
              else [⟨d, e.1, e.2, m, lr.1, lr.2, te.1, te.2⟩]

/-- The unfiltered cartesian product of the five `pgd` grids, in the same
enumeration order, for comparison with `pgdExperiments`. -/
def pgdFullProduct : List PgdCfg :=
  pgdDatasets.flatMap fun d =>
    pgdEpsilons.flatMap fun e =>
      pgdModelSizes.flatMap fun m =>
        pgdLearningRates.flatMap fun lr =>
          pgdTestEpsilons.map fun te =>
            ⟨d, e.1, e.2, m, lr.1, lr.2, te.1, te.2⟩

/-- The condition stated by the claim: CIFAR10 rows pin the test epsilon
to `2/255` and the training epsilon to `0.01`; MNIST rows exclude both. -/
def pgdClaimCond (c : PgdCfg) : Prop :=
  (c.dataset = "CIFAR10" → c.testEpsilon = mkRat 2 255 ∧ c.epsilon = mkRat 1 100) ∧
  (c.dataset = "MNIST" → c.testEpsilon ≠ mkRat 2 255 ∧ c.epsilon ≠ mkRat 1 100)

instance (c : PgdCfg) : Decidable (pgdClaimCond c) := by
  unfold pgdClaimCond
  infer_instance

/-- `cli.py:204-209`: the checkpoint path, which switches to the
`dm_torch` layout when the learning rate is `0`. -/
def checkpointFileFor (c : PgdCfg) : String :=
  if c.learningRate = 0 then
    "dm_torch/" ++ c.dataset.toLower ++ "-" ++ c.model ++ "-" ++
      c.epsilonStr ++ ".pth"
  else
    c.dataset ++ "-" ++ c.model ++ "_cnn-" ++ c.epsilonStr ++ "/" ++
      c.learningRateStr ++ "/checkpoint.pth"

/-- `cli.py:210`: `print(i, f'{dataset}-{model}-{epsilon}',
learning_rate, test_epsilon)`. -/
def pgdPrintLine (i : Nat) (c : PgdCfg) : String :=
  toString i ++ " " ++ c.dataset ++ "-" ++ c.model ++ "-" ++ c.epsilonStr ++
    " " ++ c.learningRateStr ++ " " ++ c.testEpsilonStr

/-- The run block of `pgd` (`cli.py:211-236`): build the model, load the
checkpoint, read `state_dict`, run `compute_robustness` (its outcome is
the parameter `cr`, as the attack lives in an external module), append
the result record, and save — the only file-system write, performed last.
Returns the emitted effects, the resulting file system, and the Python
outcome. -/
def pgdRunBlock (fs : FS) (file modelName : String) (subset : Option Nat)
    (restarts : Nat) (seed : Option Int) (testEpsilon : ℚ)
    (cr : Except PyErr RobResults) :
    List Eff × FS × Except PyErr Unit :=
  match torchLoad fs file with
  | .error e => ([.buildModel modelName, .loadCkpt file], fs, .error e)
  | .ok checkpoint =>
    match dictGet checkpoint "state_dict" with
    | none =>
      ([.buildModel modelName, .loadCkpt file], fs,
       .error (.keyError "state_dict"))
    | some _ =>
      match cr with
      | .error e =>
        ([.buildModel modelName, .loadCkpt file,
          .attack restarts subset seed testEpsilon], fs, .error e)
      | .ok results =>
        match appendPGD checkpoint
            (mkRecord seed subset restarts testEpsilon results) with
        | .error e =>
          ([.buildModel modelName, .loadCkpt file,
            .attack restarts subset seed testEpsilon], fs, .error e)
        | .ok c' =>
          ([.buildModel modelName, .loadCkpt file,
            .attack restarts subset seed testEpsilon, .saveCkpt file],
           torchSave fs file c', .ok ())

/-- One iteration of the `pgd` loop (`cli.py:202-236`): print the line,
then run the block only when `run` is set. -/
def pgdStep (run : Bool) (subset : Option Nat) (restarts : Nat)
    (seed : Option Int) (i : Nat) (c : PgdCfg) (fs : FS)
    (cr : Except PyErr RobResults) : List Eff × FS × Except PyErr Unit :=
  if run then
    let r := pgdRunBlock fs (checkpointFileFor c) (c.model ++ "_cnn")
      subset restarts seed c.testEpsilon cr
    (.printLn (pgdPrintLine i c) :: r.1, r.2.1, r.2.2)
  else
    ([.printLn (pgdPrintLine i c)], fs, .ok ())

/-- The `pgd` loop over an enumerated configuration list: an uncaught
exception aborts the remaining iterations, as in Python. -/
def pgdLoopGo (run : Bool) (index : Option Nat) (subset : Option Nat)
    (restarts : Nat) (seed : Option Int)
    (cr : Nat → Except PyErr RobResults) :
    List (Nat × PgdCfg) → FS → List Eff × FS × Except PyErr Unit
  | [], fs => ([], fs, .ok ())
  | (i, c) :: rest, fs =>
    if indexMatches index i then
      let r := pgdStep run subset restarts seed i c fs (cr i)
      match r.2.2 with
      | .error e => (r.1, r.2.1, .error e)
      | .ok _ =>
        let r2 := pgdLoopGo run index subset restarts seed cr rest r.2.1
        (r.1 ++ r2.1, r2.2.1, r2.2.2)
    else pgdLoopGo run index subset restarts seed cr rest fs

/-- The `pgd` command body (`cli.py:200-236`) for given values of the
non-option parameters `subset`, `restarts` and `seed`. -/
def pgdLoop (run : Bool) (index : Option Nat) (subset : Option Nat)
    (restarts : Nat) (seed : Option Int) (fs : FS)
    (cr : Nat → Except PyErr RobResults) :
    List Eff × FS × Except PyErr Unit :=
  pgdLoopGo run index subset restarts seed cr pgdExperiments.enum fs

/-- The names of the parameters of `pgd` that are exposed as
`click.option`s (`cli.py:168-181`): only the run flag and the index. -/
def pgdCliOptionNames : List String := ["run", "index"]

/-- `cli.py:182`: the default of the `subset` parameter, which has no
`click.option`. -/
def pgdDefaultSubset : Option Nat := none

/-- `cli.py:182`: the default of the `restarts` parameter, which has no
`click.option`. -/
def pgdDefaultRestarts : Nat := 1

/-- `cli.py:182`: the default of the `seed` parameter, which has no
`click.option`. -/
def pgdDefaultSeed : Option Int := none

/-- An invocation of `pgd` through its command line: click supplies only
`run` and `index`; the remaining parameters keep their Python defaults. -/
def pgdCli (run : Bool) (index : Option Nat) (fs : FS)
    (cr : Nat → Except PyErr RobResults) :
    List Eff × FS × Except PyErr Unit :=
  pgdLoop run index pgdDefaultSubset pgdDefaultRestarts pgdDefaultSeed fs cr

/-- Modelled from the spec: the subset handling of `compute_robustness`
(`src/ibp_neurips19/attacks.py`, not among the sources) — "when a subset
size is given, a deterministic random sample of that size is drawn from
the evaluation set using the given seed ...; when no subset is given, the
full set is evaluated."  This definition records how many samples are
evaluated for a given full evaluation-set size. -/
def evaluatedSubsetSize (fullSize : Nat) (subset : Option Nat) : Nat :=
  match subset with
  | none => fullSize
  | some k => k

theorem flatMap_ifSingleton {α β : Type} (l : List α) (m : α → Bool)
    (f : α → β) :
    (l.flatMap fun a => if m a then [f a] else []) = (l.filter m).map f := by
  induction l with
  | nil => rfl
  | cons h t ih =>
    by_cases hm : m h <;> simp [hm, ih, List.filter_cons]

theorem pgdLoopGo_show_eq (index : Option Nat) (subset : Option Nat)
    (restarts : Nat) (seed : Option Int)
    (cr : Nat → Except PyErr RobResults) (l : List (Nat × PgdCfg)) (fs : FS) :
    pgdLoopGo false index subset restarts seed cr l fs =
      ((l.filter fun p => indexMatches index p.1).map
        (fun p => Eff.printLn (pgdPrintLine p.1 p.2)), fs, Except.ok ()) := by
  induction l generalizing fs with
  | nil => rfl
  | cons h t ih =>
    obtain ⟨i, c⟩ := h
    by_cases hm : indexMatches index i
    · simp [pgdLoopGo, pgdStep, hm, ih, List.filter_cons]
    · simp [pgdLoopGo, hm, ih, List.filter_cons]

/-- C10: with no mode flag, `basic` runs in validation mode:
`evaluate_only` defaults to `True` (`cli.py:24-31`), the body forwards
the arguments to `train_classifier` unchanged (`cli.py:119-121`), and
the `experiment` command always invokes `basic` with
`evaluate_only=False` (`cli.py:156-158`). -/
theorem spec_C10_validate_default :
    basicDefaults.evaluate_only = true ∧
    (∀ a : BasicArgs, basicRun a = Eff.trainClassifier a) ∧
    (∀ c : ExpCfg, (expInvoke c).evaluate_only = false) :=
  ⟨rfl, fun _ => rfl, fun _ => rfl⟩

/-- C6: for every configuration enumerated by `experiment`, the log
directory is `dataset-model-epsilon/learning_rate` and the checkpoint
path is that directory followed by `/checkpoint.pth`, both in the printed
command and in the arguments of the `ctx.invoke(basic, ...)` call that a
run actually performs (`cli.py:146-164`). -/
theorem spec_C6_experiment_paths (i : Nat) (c : ExpCfg) :
    expStep true i c =
      [Eff.printLn (toString i ++ " " ++ expCommand c),
       Eff.invokeBasic (expInvoke c)] ∧
    (expInvoke c).log_dir = expDirectory c ∧
    (expInvoke c).checkpoint = expDirectory c ++ "/checkpoint.pth" ∧
    expDirectory c =
      c.dataset ++ "-" ++ c.model ++ "-" ++ c.epsilonStr ++ "/" ++
        c.learningRateStr ∧
    expCommand c =
      "ibp basic --train -d " ++ c.dataset ++ " -m " ++ c.model ++ " -e " ++
        c.epsilonStr ++ " -lr " ++ c.learningRateStr ++ " -l " ++
        expDirectory c ++ " -c " ++ expDirectory c ++ "/checkpoint.pth" :=
  ⟨rfl, rfl, rfl, rfl, rfl⟩

/-- C5: the record appended by the `pgd` run block (`cli.py:227-235`) is
a mapping with exactly the keys `seed`, `subset`, `restarts`, `epsilon`,
`robustness`, `fooling_rate` and `sorted_errors`, in that order; its
`epsilon` entry is the test epsilon the attack ran with, and
`robustness`, `fooling_rate` and `sorted_errors` come from the aggregated
attack results. -/
theorem spec_C5_record_fields (seed : Option Int) (subset : Option Nat)
    (restarts : Nat) (testEpsilon : ℚ) (r : RobResults) :
    (mkRecord seed subset restarts testEpsilon r).map Prod.fst =
      ["seed", "subset", "restarts", "epsilon", "robustness",
       "fooling_rate", "sorted_errors"] ∧
    dictGet (mkRecord seed subset restarts testEpsilon r) "seed" =
      some (.intOpt seed) ∧
    dictGet (mkRecord seed subset restarts testEpsilon r) "subset" =
      some (.natOpt subset) ∧
    dictGet (mkRecord seed subset restarts testEpsilon r) "restarts" =
      some (.nat restarts) ∧
    dictGet (mkRecord seed subset restarts testEpsilon r) "epsilon" =
      some (.rat testEpsilon) ∧
    dictGet (mkRecord seed subset restarts testEpsilon r) "robustness" =
      some (.rat r.robustness) ∧
    dictGet (mkRecord seed subset restarts testEpsilon r) "fooling_rate" =
      some (.rat r.fooling_rate) ∧
    dictGet (mkRecord seed subset restarts testEpsilon r) "sorted_errors" =
      some (.ratList r.sorted_errors) :=
  ⟨rfl, rfl, rfl, rfl, rfl, rfl, rfl, rfl⟩

/-- C9: the `pgd` enumeration (`cli.py:185-198`) yields exactly the
members of the cartesian product that satisfy the claimed condition, in a
fixed order (so an index always selects the same configuration; the first
row is MNIST, epsilon 0.03, small, learning rate 0, test epsilon 0.1),
and the checkpoint path switches to the `dm_torch` layout exactly when
the learning rate is 0 (`cli.py:204-209`). -/
theorem spec_C9_pgd_enumeration :
    pgdExperiments = pgdFullProduct.filter (fun c => decide (pgdClaimCond c)) ∧
    pgdExperiments.length = 80 ∧
    pgdExperiments[0]? =
      some ⟨"MNIST", mkRat 3 100, "0.03", "small", 0, "0", mkRat 1 10, "0.1"⟩ ∧
    (∀ c : PgdCfg, checkpointFileFor c =
      if c.learningRate = 0 then
        "dm_torch/" ++ c.dataset.toLower ++ "-" ++ c.model ++ "-" ++
          c.epsilonStr ++ ".pth"
      else
        c.dataset ++ "-" ++ c.model ++ "_cnn-" ++ c.epsilonStr ++ "/" ++
          c.learningRateStr ++ "/checkpoint.pth") :=
  ⟨by decide, by decide, by decide, fun c => rfl⟩

/-- C8: with the run flag unset (the default show mode), both commands
only print the enumerated configurations matching the given index: the
`experiment` loop emits no `ctx.invoke(basic, ...)` call, and the `pgd`
loop emits no model build, checkpoint load, attack or checkpoint save and
leaves the file system unchanged (`cli.py:146-164`, `cli.py:200-236`). -/
theorem spec_C8_show_mode (index subset : Option Nat) (restarts : Nat)
    (seed : Option Int) (fs : FS) (cr : Nat → Except PyErr RobResults) :
    experimentLoop false index =
      (expGrid.enum.filter fun p => indexMatches index p.1).map
        (fun p => Eff.printLn (toString p.1 ++ " " ++ expCommand p.2)) ∧
    pgdLoop false index subset restarts seed fs cr =
      ((pgdExperiments.enum.filter fun p => indexMatches index p.1).map
        (fun p => Eff.printLn (pgdPrintLine p.1 p.2)), fs, Except.ok ()) := by
  constructor
  · have hbody : (fun p : Nat × ExpCfg =>
        if indexMatches index p.1 then expStep false p.1 p.2 else []) =
        fun p : Nat × ExpCfg =>
          if indexMatches index p.1 then
            [Eff.printLn (toString p.1 ++ " " ++ expCommand p.2)]
          else [] := by
      funext p
      simp [expStep]
    rw [experimentLoop, hbody,
      flatMap_ifSingleton expGrid.enum (fun p => indexMatches index p.1)
        (fun p => Eff.printLn (toString p.1 ++ " " ++ expCommand p.2))]
  · exact pgdLoopGo_show_eq index subset restarts seed cr pgdExperiments.enum fs

/-- C2 counterexample: the claim says the `basic` command surface rejects
a negative epsilon, but `--epsilon` is declared with `click.FloatRange()`
and no lower bound (`cli.py:113-118`), so the parameter checks of `basic`
accept an argument record whose epsilon is `-1`. -/
theorem spec_C2_counterexample :
    ({ basicDefaults with epsilon := -1 } : BasicArgs).epsilon < 0 ∧
    basicCliAccepts { basicDefaults with epsilon := -1 } = true := by
  constructor
  · decide
  · decide

/-- C2 (amended): the `basic` command surface rejects negative learning
rate, momentum and weight decay (`click.FloatRange(min=0)`,
`cli.py:52-69`), but epsilon is parsed with an unbounded
`click.FloatRange()` (`cli.py:113-118`), so its value never affects
acceptance and negative epsilons reach training unchecked. -/
theorem spec_C2_nonneg_ranges (a : BasicArgs)
    (h : basicCliAccepts a = true) :
    0 ≤ a.learning_rate ∧ 0 ≤ a.momentum ∧ 0 ≤ a.weight_decay ∧
    ∀ q : ℚ, basicCliAccepts { a with epsilon := q } = true := by
  simp only [basicCliAccepts, learningRateRange, momentumRange,
    weightDecayRange, epochsRange, batchSizeRange, jobsRange, seedRange,
    epsilonRange, FloatRange.accepts, IntRange.accepts, IntRange.acceptsOpt,
    Bool.and_eq_true, decide_eq_true_eq] at h
  simp only [basicCliAccepts, learningRateRange, momentumRange,
    weightDecayRange, epochsRange, batchSizeRange, jobsRange, seedRange,
    epsilonRange, FloatRange.accepts, IntRange.accepts, IntRange.acceptsOpt,
    Bool.and_eq_true, decide_eq_true_eq]
  tauto

/-- C2 witness: the default arguments are accepted, so the amended
theorem applies to them. -/
theorem spec_C2_witness :
    basicCliAccepts basicDefaults = true ∧
    (0 ≤ basicDefaults.learning_rate ∧ 0 ≤ basicDefaults.momentum ∧
     0 ≤ basicDefaults.weight_decay ∧
     ∀ q : ℚ, basicCliAccepts { basicDefaults with epsilon := q } = true) :=
  ⟨by decide, spec_C2_nonneg_ranges basicDefaults (by decide)⟩

/-- C4 counterexample: the claim says restarts, subset size and subset
seed can each be set through the command surface of `pgd`, but the only
`click.option` declarations of `pgd` are the run flag and the index
(`cli.py:167-181`); `subset`, `restarts` and `seed` are plain Python
keyword parameters (`cli.py:182`) no command-line invocation can set. -/
theorem spec_C4_counterexample :
    ¬ ("restarts" ∈ pgdCliOptionNames ∧ "subset" ∈ pgdCliOptionNames ∧
       "seed" ∈ pgdCliOptionNames) := by
  decide

/-- C4 (amended): the command surface of `pgd` exposes only the run flag
and the index; every command-line invocation therefore runs with the
fixed defaults `restarts=1`, `subset=None`, `seed=None`, and — since no
subset is ever given this way — the full evaluation set is used
(subset semantics modelled from the spec, `evaluatedSubsetSize`). -/
theorem spec_C4_cli_surface (run : Bool) (index : Option Nat) (fs : FS)
    (cr : Nat → Except PyErr RobResults) (n : Nat) :
    pgdCliOptionNames = ["run", "index"] ∧
    pgdCli run index fs cr = pgdLoop run index none 1 none fs cr ∧
    pgdDefaultSubset = none ∧ pgdDefaultRestarts = 1 ∧
    pgdDefaultSeed = none ∧
    evaluatedSubsetSize n none = n :=
  ⟨rfl, rfl, rfl, rfl, rfl, rfl⟩

theorem pgdRunBlock_ok (fs : FS) (file mn : String) (subset : Option Nat)
    (restarts : Nat) (seed : Option Int) (e : ℚ) (r : RobResults)
    (c : Checkpoint) (sd : CVal) (l : List AttackRecord)
    (hload : torchLoad fs file = Except.ok c)
    (hsd : dictGet c "state_dict" = some sd)
    (hprior : priorPGD c = some l) :
    pgdRunBlock fs file mn subset restarts seed e (Except.ok r) =
      ([Eff.buildModel mn, Eff.loadCkpt file,
        Eff.attack restarts subset seed e, Eff.saveCkpt file],
       torchSave fs file
         (dictSet c "PGD"
           (.records (l ++ [mkRecord seed subset restarts e r]))),
       Except.ok ()) := by
  have happ := appendPGD_of_prior c l (mkRecord seed subset restarts e r)
    hprior
  simp [pgdRunBlock, hload, hsd, happ]

/-- The conclusion of claim C1: one run of the `pgd` run block appends
exactly one record under `PGD` and rewrites the checkpoint file; a second
run with another test epsilon preserves the first record and the whole
prior list, in order, and ends with both new records in append order. -/
def pgdRunsAppend (fs : FS) (file mn : String) (subset : Option Nat)
    (restarts : Nat) (seed : Option Int) (e1 e2 : ℚ) (r1 r2 : RobResults)
    (c : Checkpoint) (l : List AttackRecord) : Prop :=
  let rec1 := mkRecord seed subset restarts e1 r1
  let rec2 := mkRecord seed subset restarts e2 r2
  let c1 := dictSet c "PGD" (CVal.records (l ++ [rec1]))
  let c2 := dictSet c1 "PGD" (CVal.records (l ++ [rec1, rec2]))
  pgdRunBlock fs file mn subset restarts seed e1 (Except.ok r1) =
    ([Eff.buildModel mn, Eff.loadCkpt file,
      Eff.attack restarts subset seed e1, Eff.saveCkpt file],
     torchSave fs file c1, Except.ok ()) ∧
  pgdRunBlock (torchSave fs file c1) file mn subset restarts seed e2
      (Except.ok r2) =
    ([Eff.buildModel mn, Eff.loadCkpt file,
      Eff.attack restarts subset seed e2, Eff.saveCkpt file],
     torchSave (torchSave fs file c1) file c2, Except.ok ()) ∧
  priorPGD c1 = some (l ++ [rec1]) ∧
  priorPGD c2 = some (l ++ [rec1, rec2]) ∧
  torchLoad (torchSave (torchSave fs file c1) file c2) file = Except.ok c2

/-- C1: when the loaded checkpoint has a `state_dict` entry and its `PGD`
entry is a record list (or absent, in which case an empty list is created
first, `cli.py:225-226`), a run of the `pgd` run block appends exactly
one new record to the `PGD` list, preserving every previously stored
record unchanged and in order; running it twice (e.g. with different
epsilons) leaves both records present in append order
(`cli.py:214-236`). -/
theorem spec_C1_pgd_append_only (fs : FS) (file mn : String)
    (subset : Option Nat) (restarts : Nat) (seed : Option Int) (e1 e2 : ℚ)
    (r1 r2 : RobResults) (c : Checkpoint) (l : List AttackRecord)
    (hload : torchLoad fs file = Except.ok c)
    (hsd : (dictGet c "state_dict").isSome = true)
    (hprior : priorPGD c = some l) :
    pgdRunsAppend fs file mn subset restarts seed e1 e2 r1 r2 c l := by
  obtain ⟨sd, hsd'⟩ := Option.isSome_iff_exists.mp hsd
  have hne : "state_dict" ≠ "PGD" := by decide
  dsimp only [pgdRunsAppend]
  have h1 := pgdRunBlock_ok fs file mn subset restarts seed e1 r1 c sd l
    hload hsd' hprior
  have hload1 : torchLoad
      (torchSave fs file
        (dictSet c "PGD"
          (.records (l ++ [mkRecord seed subset restarts e1 r1])))) file =
      Except.ok
        (dictSet c "PGD"
          (.records (l ++ [mkRecord seed subset restarts e1 r1]))) := by
    simp [torchLoad, torchSave, dictGet_dictSet_self]
  have hsd1 : dictGet
      (dictSet c "PGD"
        (.records (l ++ [mkRecord seed subset restarts e1 r1])))
      "state_dict" = some sd := by
    rw [dictGet_dictSet_ne _ _ _ _ hne, hsd']
  have hprior1 : priorPGD
      (dictSet c "PGD"
        (.records (l ++ [mkRecord seed subset restarts e1 r1]))) =
      some (l ++ [mkRecord seed subset restarts e1 r1]) := by
    simp [priorPGD, dictGet_dictSet_self]
  have h2 := pgdRunBlock_ok
    (torchSave fs file
      (dictSet c "PGD"
        (.records (l ++ [mkRecord seed subset restarts e1 r1]))))
    file mn subset restarts seed e2 r2
    (dictSet c "PGD"
      (.records (l ++ [mkRecord seed subset restarts e1 r1])))
    sd (l ++ [mkRecord seed subset restarts e1 r1]) hload1 hsd1 hprior1
  rw [List.append_assoc] at h2
  refine ⟨h1, h2, hprior1, ?_, ?_⟩
  · simp [priorPGD, dictGet_dictSet_self]
  · simp [torchLoad, torchSave, dictGet_dictSet_self]

/-- C1 witness: a concrete file system holding one checkpoint with only a
`state_dict` entry, run twice with test epsilons 0.1 and 0.2. -/
theorem spec_C1_witness :
    (torchLoad [("f", [("state_dict", CVal.stateDict 0)])] "f" =
        Except.ok [("state_dict", CVal.stateDict 0)] ∧
     (dictGet [("state_dict", CVal.stateDict 0)] "state_dict").isSome =
        true ∧
     priorPGD [("state_dict", CVal.stateDict 0)] = some []) ∧
    pgdRunsAppend [("f", [("state_dict", CVal.stateDict 0)])] "f"
      "small_cnn" none 1 none (mkRat 1 10) (mkRat 1 5)
      ⟨1, 0, []⟩ ⟨0, 1, []⟩ [("state_dict", CVal.stateDict 0)] [] :=
  ⟨⟨rfl, rfl, rfl⟩,
   spec_C1_pgd_append_only _ _ _ _ _ _ _ _ _ _ _ _ rfl rfl rfl⟩

/-- C3: when the checkpoint file deserializes fine but the resulting
mapping has no `state_dict` key, the `pgd` run block fails with the
key-lookup error naming the missing key (`KeyError('state_dict')` from
`checkpoint['state_dict']`, `cli.py:215`), not with a load fault, and the
file system is untouched. -/
theorem spec_C3_missing_key_error (fs : FS) (file mn : String)
    (subset : Option Nat) (restarts : Nat) (seed : Option Int)
    (testEpsilon : ℚ) (cr : Except PyErr RobResults) (c : Checkpoint)
    (hload : torchLoad fs file = Except.ok c)
    (hmissing : dictGet c "state_dict" = none) :
    (pgdRunBlock fs file mn subset restarts seed testEpsilon cr).2.2 =
      Except.error (PyErr.keyError "state_dict") ∧
    (pgdRunBlock fs file mn subset restarts seed testEpsilon cr).2.1 =
      fs := by
  constructor <;> simp [pgdRunBlock, hload, hmissing]

/-- C3 witness: a stored checkpoint that is an empty mapping. -/
theorem spec_C3_witness :
    (torchLoad [("f", ([] : Checkpoint))] "f" = Except.ok [] ∧
     dictGet ([] : Checkpoint) "state_dict" = none) ∧
    ((pgdRunBlock [("f", [])] "f" "small_cnn" none 1 none (mkRat 1 10)
        (Except.ok ⟨1, 0, []⟩)).2.2 =
      Except.error (PyErr.keyError "state_dict") ∧
     (pgdRunBlock [("f", [])] "f" "small_cnn" none 1 none (mkRat 1 10)
        (Except.ok ⟨1, 0, []⟩)).2.1 = [("f", [])]) :=
  ⟨⟨rfl, rfl⟩,
   spec_C3_missing_key_error _ _ _ _ _ _ _ _ _ rfl rfl⟩

/-- C7: whenever the `pgd` run block ends in an error — checkpoint load
failure, missing `state_dict`, or `compute_robustness` raising — the file
system is unchanged and no save was performed; `torch.save` is the last
statement of the block (`cli.py:236`), after the record is fully built
and appended in memory. -/
theorem spec_C7_no_write_on_failure (fs : FS) (file mn : String)
    (subset : Option Nat) (restarts : Nat) (seed : Option Int)
    (testEpsilon : ℚ) (cr : Except PyErr RobResults) (e : PyErr)
    (herr : (pgdRunBlock fs file mn subset restarts seed testEpsilon
        cr).2.2 = Except.error e) :
    (pgdRunBlock fs file mn subset restarts seed testEpsilon cr).2.1 =
      fs ∧
    Eff.saveCkpt file ∉
      (pgdRunBlock fs file mn subset restarts seed testEpsilon cr).1 := by
  cases h1 : torchLoad fs file with
  | error e1 => constructor <;> simp [pgdRunBlock, h1]
  | ok c =>
    cases h2 : dictGet c "state_dict" with
    | none => constructor <;> simp [pgdRunBlock, h1, h2]
    | some sd =>
      cases cr with
      | error e2 => constructor <;> simp [pgdRunBlock, h1, h2]
      | ok res =>
        cases h3 : appendPGD c
            (mkRecord seed subset restarts testEpsilon res) with
        | error e3 => constructor <;> simp [pgdRunBlock, h1, h2, h3]
        | ok c' => simp [pgdRunBlock, h1, h2, h3] at herr

/-- C7 witness: an empty file system, on which the load itself fails. -/
theorem spec_C7_witness :
    ((pgdRunBlock [] "f" "small_cnn" none 1 none (mkRat 1 10)
        (Except.ok ⟨1, 0, []⟩)).2.2 =
      Except.error (PyErr.fileNotFound "f")) ∧
    ((pgdRunBlock [] "f" "small_cnn" none 1 none (mkRat 1 10)
        (Except.ok ⟨1, 0, []⟩)).2.1 = [] ∧
     Eff.saveCkpt "f" ∉
       (pgdRunBlock [] "f" "small_cnn" none 1 none (mkRat 1 10)
         (Except.ok ⟨1, 0, []⟩)).1) :=
  ⟨rfl, spec_C7_no_write_on_failure _ _ _ _ _ _ _ _
    (PyErr.fileNotFound "f") rfl⟩
